import Mathlib

set_option maxRecDepth 100000

/-!
Verification of `scripts/icon-cfg/ubuntu20.cpu.py`, a sequential build-configuration
tool: it verifies apt dependencies, reconciles a git checkout, and renders a
`configure.sh` shell script into the build directory.

The embedding models Python strings as Lean `String` (code-point lists), the
relevant filesystem state explicitly, and external effects (apt cache, file
existence, git) as environment parameters.  Python `set` iteration order is
interpreter-dependent (string-hash randomisation), so the two `set()`s used by
the script generator are modelled by an explicit enumeration-order parameter
constrained to be a permutation of the distinct inserted elements.
-/

/-- Python-style string slicing helpers over code points (`str[n:]`). -/
def strDrop (s : String) (n : Nat) : String :=
  String.mk (s.data.drop n)

/-- Python `str[:-n]`. -/
def strDropRight (s : String) (n : Nat) : String :=
  String.mk (s.data.take (s.data.length - n))

/-- Does the first list start with the second-argument pattern list? -/
def startsWithList : List Char → List Char → Bool
  | [], _ => true
  | _ :: _, [] => false
  | p :: ps, x :: xs => p = x && startsWithList ps xs

/-- Python `str.startswith`. -/
def strStartsWith (s pat : String) : Bool :=
  startsWithList pat.data s.data

/-- Python `str.endswith`. -/
def strEndsWith (s pat : String) : Bool :=
  startsWithList pat.data.reverse s.data.reverse

/-- Does `s` contain `pat` as a contiguous substring? -/
def containsList (pat : List Char) : List Char → Bool
  | [] => startsWithList pat []
  | x :: xs => startsWithList pat (x :: xs) || containsList pat xs

/-- Python `pat in s`. -/
def strContains (s pat : String) : Bool :=
  containsList pat.data s.data

/-- Python `sep.join(parts)`. -/
def joinSep (sep : String) : List String → String
  | [] => ""
  | [x] => x
  | x :: y :: xs => x ++ sep ++ joinSep sep (y :: xs)

/-- Split a character list at every occurrence of `c`. -/
def splitChar (c : Char) : List Char → List (List Char)
  | [] => [[]]
  | x :: xs =>
    if x = c then [] :: splitChar c xs
    else
      match splitChar c xs with
      | [] => [[x]]
      | y :: ys => (x :: y) :: ys

/-- Split a string into lines (at every newline character). -/
def strLines (s : String) : List String :=
  (splitChar (Char.ofNat 10) s.data).map String.mk

/-- Surround a string with double quotes, as the f-strings in the script do. -/
def dq (s : String) : String :=
  "\"" ++ s ++ "\""

/-- Python `os.path.join(a, b)` for the relative second components used here. -/
def join_path (a b : String) : String :=
  a ++ "/" ++ b

/-- First-occurrence deduplication: the distinct elements a Python `set`
ends up holding after inserting `l` in order. -/
def dedupList (l : List String) : List String :=
  l.foldl (fun acc x => if x ∈ acc then acc else acc ++ [x]) []

/-- A possible iteration order of a Python `set` whose insertions were `elems`:
some permutation of the distinct elements (the actual order depends on the
interpreter's randomised string hash). -/
def ValidEnum (elems order : List String) : Prop :=
  order.Perm (dedupList elems)

/-- The proper prefixes and the full path created by `os.makedirs(p)`. -/
def pathPrefixes (p : String) : List String :=
  let comps := ((splitChar '/' p.data).filter (· ≠ [])).map String.mk
  let lead := if strStartsWith p "/" then "/" else ""
  (List.range comps.length).map (fun n => lead ++ joinSep "/" (comps.take (n + 1)))

/-- `DependencyInfo` record from the script (a `NamedTuple`). -/
structure DependencyInfo where
  name : String
  apt_package : String
  include_dir : String
  lib_dir : String
  test_h : String
  lib : String
deriving DecidableEq

/-- The static dependency catalog `DEPS` from the script, verbatim. -/
def DEPS : List DependencyInfo :=
  [⟨"lapack", "liblapacke-dev", "/usr/include", "/usr/lib/x86_64-linux-gnu/lapack", "lapacke.h", "liblapack.so"⟩,
   ⟨"blas", "libblas-dev", "/usr/include/x86_64-linux-gnu", "/usr/lib/x86_64-linux-gnu/blas", "cblas.h", "libblas.so"⟩,
   ⟨"NetCDF-Fortran", "libnetcdff-dev", "/usr/include", "/usr/lib/x86_64-linux-gnu", "netcdf.inc", "libnetcdf.so"⟩,
   ⟨"NetCDF-C", "libnetcdf-dev", "/usr/include", "/usr/lib/x86_64-linux-gnu", "netcdf.h", "libnetcdff.so"⟩,
   ⟨"zlib", "zlib1g-dev", "/usr/include", "/usr/lib/x86_64-linux-gnu", "zlib.h", "libz.so"⟩,
   ⟨"szip", "libsz2", "/usr/include", "/usr/lib/x86_64-linux-gnu", "szlib.h", "libsz.so"⟩,
   ⟨"xml2", "libxml2-dev", "/usr/include/libxml2", "/usr/lib/x86_64-linux-gnu", "libxml/parser.h", "libxml2.so"⟩]

/-- The CLI argument record `Args` from the script. -/
structure Args where
  icon_dir : String
  build_dir : String
  cc : String
  fc : String
  claw : Option String
  icon_git_repo : Option String
  icon_git_branch : Option String
  mpi : Bool
deriving DecidableEq

/-- The bare link name computed inside the generator loop:
`lib = lib[3:]`, then strip a trailing `.a` else a trailing `.so`. -/
def lib_link_name (lib : String) : String :=
  let l := strDrop lib 3
  if strEndsWith l ".a" then strDropRight l 2
  else if strEndsWith l ".so" then strDropRight l 3
  else l

/-- The `libs` list accumulated by the generator loop over the catalog, with the
`assert lib.startswith('lib')` modelled as a fail-fast error. -/
def libNames : List DependencyInfo → Except String (List String)
  | [] => Except.ok []
  | d :: rest =>
    if strStartsWith d.lib "lib" then
      match libNames rest with
      | Except.ok ls => Except.ok (lib_link_name d.lib :: ls)
      | Except.error e => Except.error e
    else Except.error "AssertionError"

/-- The `cfg_defs` f-string block of `generate_configure_script`. -/
def mkCfgDefs (args : Args) (inc_str lib_dirs_str libs_str : String) : String :=
  "\nexport CC=" ++ dq args.cc ++
  "\nexport FC=" ++ dq args.fc ++
  "\nexport CFLAGS=" ++ dq inc_str ++
  "\nexport CPPFLAGS=" ++ dq inc_str ++
  "\nexport FCFLAGS=" ++ dq inc_str ++
  "\nexport LDFLAGS=" ++ dq lib_dirs_str ++
  "\nexport LIBS=" ++ dq libs_str ++ "\n"

/-- The pure text-rendering part of `generate_configure_script`:
everything before `os.makedirs`.  `incOrder` and `libOrder` are the iteration
orders of the `include_dirs` and `lib_dirs` sets.  Fails with `Not implemented`
when `args.mpi` is set (the `assert False, 'Not implemented'` branch). -/
def render_script (args : Args) (deps : List DependencyInfo)
    (incOrder libOrder : List String) : Except String String :=
  match libNames deps with
  | Except.error e => Except.error e
  | Except.ok libs =>
    let inc_str := joinSep " " (incOrder.map (fun i => "-I" ++ i))
    let lib_dirs_str := joinSep " " (libOrder.map (fun l => "-L" ++ l))
    let libs_str := joinSep " " (libs.map (fun l => "-l" ++ l))
    let cfg_defs := mkCfgDefs args inc_str lib_dirs_str libs_str
    let cfg_defs := match args.claw with
      | some c => cfg_defs ++ "export CLAW=" ++ dq c
      | none => cfg_defs
    let cfg_flags : List String := match args.claw with
      | some _ => ["--enable-claw"]
      | none => []
    if args.mpi then Except.error "Not implemented"
    else
      let cfg_flags := cfg_flags ++ ["--disable-mpi"]
      let cfg_flags_str := joinSep " " cfg_flags
      Except.ok ("\n#!/bin/bash\n" ++ cfg_defs ++
        "\n" ++ args.icon_dir ++ "/configure " ++ cfg_flags_str ++ "\n")

/-- Filesystem state relevant to the generator: the set of existing directories
and the `configure.sh` file in the build directory (content and mtime). -/
structure FS where
  dirs : List String
  script : Option (String × Nat)
deriving DecidableEq

/-- Observable filesystem actions of `generate_configure_script`. -/
inductive FSEvent where
  | makedirs : String → FSEvent
  | removeFile : String → FSEvent
  | writeFile : String → String → FSEvent
deriving DecidableEq

/-- Result of a run of the generator: the event trace, the final filesystem
state, and the returned `(path, text)` pair or the failure message. -/
structure GenResult where
  events : List FSEvent
  fs : FS
  result : Except String (String × String)

/-- `generate_configure_script`: render the text, `os.makedirs(build_dir,
exist_ok=True)`, remove a pre-existing `configure.sh` whose content differs,
then open the file for writing and write the text (the write sets the mtime to
`now`; it requires the build directory to exist, which `makedirs` ensures). -/
def generate_configure_script (args : Args) (deps : List DependencyInfo)
    (incOrder libOrder : List String) (fs : FS) (now : Nat) : GenResult :=
  match render_script args deps incOrder libOrder with
  | Except.error e => ⟨[], fs, Except.error e⟩
  | Except.ok cfg_script =>
    let fs1 : FS := { fs with dirs := args.build_dir :: pathPrefixes args.build_dir ++ fs.dirs }
    let cfg_script_file := join_path args.build_dir "configure.sh"
    let step : List FSEvent × FS :=
      match fs1.script with
      | some (txt, _) =>
        if cfg_script ≠ txt then ([FSEvent.removeFile cfg_script_file], { fs1 with script := none })
        else ([], fs1)
      | none => ([], fs1)
    if args.build_dir ∈ step.2.dirs then
      ⟨FSEvent.makedirs args.build_dir :: step.1 ++ [FSEvent.writeFile cfg_script_file cfg_script],
       { step.2 with script := some (cfg_script, now) },
       Except.ok (cfg_script_file, cfg_script)⟩
    else
      ⟨FSEvent.makedirs args.build_dir :: step.1, step.2, Except.error "FileNotFoundError"⟩

deriving instance DecidableEq for Except

instance (elems order : List String) : Decidable (ValidEnum elems order) :=
  List.decidablePerm order (dedupList elems)

/-- State of an existing git checkout: its `origin` remote URL, its active
branch, and the names of its submodules. -/
structure RepoState where
  origin_url : String
  branch : String
  submodules : List String
deriving DecidableEq

/-- Observable git actions performed by `prepare_source`. -/
inductive GitEvent where
  | clone : String → String → String → GitEvent
  | submoduleUpdate : String → GitEvent
deriving DecidableEq

/-- `prepare_source`: `existing` is the checkout at `args.icon_dir` if that
directory exists (`none` otherwise); `cloned` is the repository a clone would
produce.  Returns the git events performed and success or the assertion
message. -/
def prepare_source (args : Args) (existing : Option RepoState) (cloned : RepoState) :
    List GitEvent × Except String Unit :=
  match args.icon_git_repo with
  | some git_link =>
    let git_branch := match args.icon_git_branch with
      | some b => b
      | none => "master"
    match existing with
    | some repo =>
      if repo.origin_url ≠ git_link then
        ([], Except.error ("\tSource directory origin is in different repository " ++ dq repo.origin_url))
      else if repo.branch ≠ git_branch then
        ([], Except.error ("\tSource directory origin is different branch " ++ dq repo.branch))
      else
        (repo.submodules.map GitEvent.submoduleUpdate, Except.ok ())
    | none =>
      (GitEvent.clone git_link args.icon_dir git_branch ::
        cloned.submodules.map GitEvent.submoduleUpdate, Except.ok ())
  | none =>
    match existing with
    | some _ => ([], Except.ok ())
    | none => ([], Except.error ("ICON source dir " ++ dq args.icon_dir ++ " does not exist"))

/-- An apt package record as seen through the apt cache. -/
structure AptPackage where
  is_installed : Bool
deriving DecidableEq

/-- Environment queried by `check_dependencies`: the apt cache (name to
package, `none` when absent) and filesystem file existence. -/
structure DepEnv where
  cache : String → Option AptPackage
  file_exists : String → Bool

/-- Message of the `pkg is not None` assertion. -/
def msg_apt_not_found (d : DependencyInfo) : String :=
  "\t\tApt package " ++ dq d.apt_package ++
    " not found. Update apt cache with [sudo apt-get update] before running the script"

/-- Message of the `pkg.is_installed` assertion. -/
def msg_not_installed (d : DependencyInfo) : String :=
  "Install " ++ dq d.apt_package ++ " with [sudo apt-get install " ++ d.apt_package ++ "]"

/-- Message of the header-existence assertion. -/
def msg_header_not_found (d : DependencyInfo) : String :=
  "Header " ++ dq d.test_h ++ " not found at " ++ d.include_dir

/-- Message of the library-existence assertion (the source labels it
`Header` as well). -/
def msg_lib_not_found (d : DependencyInfo) : String :=
  "Header " ++ dq d.lib ++ " not found at " ++ d.lib_dir

/-- The checks `check_dependencies` performs for one catalog entry, in source
order: package present in the cache, package installed, header file present,
library file present. -/
def check_dep (env : DepEnv) (d : DependencyInfo) : Except String Unit :=
  match env.cache d.apt_package with
  | none => Except.error (msg_apt_not_found d)
  | some pkg =>
    if !pkg.is_installed then Except.error (msg_not_installed d)
    else if !env.file_exists (join_path d.include_dir d.test_h) then
      Except.error (msg_header_not_found d)
    else if !env.file_exists (join_path d.lib_dir d.lib) then
      Except.error (msg_lib_not_found d)
    else Except.ok ()

/-- `check_dependencies`: check every catalog entry in order, halting at the
first failed assertion. -/
def check_dependencies (env : DepEnv) : List DependencyInfo → Except String Unit
  | [] => Except.ok ()
  | d :: rest =>
    match check_dep env d with
    | Except.error e => Except.error e
    | Except.ok _ => check_dependencies env rest

/-- `check_compilers`: the file-existence assertions on the compiler paths.
The Fortran branch interpolates `args.cc` into its message, exactly as the
source does. -/
def check_compilers (args : Args) (file_exists : String → Bool) : Except String Unit :=
  if !file_exists args.cc then
    Except.error ("C compiler " ++ dq args.cc ++ " not found")
  else if !file_exists args.fc then
    Except.error ("Fortran compiler " ++ dq args.cc ++ " not found")
  else
    match args.claw with
    | some c =>
      if !file_exists c then Except.error ("CLAW compiler " ++ dq c ++ " not found")
      else Except.ok ()
    | none => Except.ok ()

/-- Extract the rendered text from a successful render (empty on failure). -/
def okText : Except String String → String
  | Except.ok s => s
  | Except.error _ => ""

/-- Extract the script text from a successful generator result. -/
def okScript : Except String (String × String) → Option String
  | Except.ok p => some p.2
  | Except.error _ => none

/-- A mpi-off, claw-off configuration used for concrete runs. -/
def args0 : Args :=
  ⟨"/home/u/icon", "/home/u/build", "/usr/bin/gcc", "/usr/bin/gfortran", none, none, none, false⟩

/-- The insertion-order enumeration of the include-directory set of `DEPS`. -/
def incOrder0 : List String :=
  ["/usr/include", "/usr/include/x86_64-linux-gnu", "/usr/include/libxml2"]

/-- Another possible enumeration of the same set (first two elements swapped). -/
def incOrderSwap : List String :=
  ["/usr/include/x86_64-linux-gnu", "/usr/include", "/usr/include/libxml2"]

/-- The insertion-order enumeration of the library-directory set of `DEPS`. -/
def libOrder0 : List String :=
  ["/usr/lib/x86_64-linux-gnu/lapack", "/usr/lib/x86_64-linux-gnu/blas", "/usr/lib/x86_64-linux-gnu"]

/-- The script text rendered for `args0` over `DEPS` with the insertion orders. -/
def rendered0 : String :=
  okText (render_script args0 DEPS incOrder0 libOrder0)

/-- An empty filesystem: no directories, no `configure.sh`. -/
def fsEmpty : FS := ⟨[], none⟩

/-- A filesystem whose `configure.sh` already holds exactly `rendered0`,
with modification time 0. -/
def fs0 : FS := ⟨[], some (rendered0, 0)⟩

/-- The path of the generated script for `args0`. -/
def cfgPath0 : String := join_path "/home/u/build" "configure.sh"

/-- The single-descriptor catalog of the spec's example scenario. -/
def deps5 : List DependencyInfo :=
  [⟨"zlib", "zlib1g-dev", "/usr/include", "/usr/lib", "zlib.h", "libz.so"⟩]

/-- The configuration of the spec's example scenario. -/
def args5 : Args :=
  ⟨"/home/u/icon", "/home/u/build", "/usr/bin/gcc", "/usr/bin/gfortran", none, none, none, false⟩

/-- The script text generated in the example scenario. -/
def script5 : String :=
  okText (render_script args5 deps5 ["/usr/include"] ["/usr/lib"])

/-- A configuration requesting MPI support. -/
def args3 : Args :=
  ⟨"/home/u/icon", "/home/u/build", "/usr/bin/gcc", "/usr/bin/gfortran", none, none, none, true⟩

/-- A configuration requesting a concrete remote and branch. -/
def args4 : Args :=
  ⟨"/home/u/icon", "/home/u/build", "/usr/bin/gcc", "/usr/bin/gfortran", none,
   some "https://example.org/icon.git", some "main", false⟩

/-- A checkout that already matches the remote and branch requested by `args4`. -/
def st4 : RepoState := ⟨"https://example.org/icon.git", "main", ["sub1", "sub2"]⟩

/-- The repository a clone would produce in the concrete scenarios. -/
def cloned4 : RepoState := ⟨"https://example.org/icon.git", "main", ["sub1", "sub2"]⟩

/-- A configuration with no remote URL. -/
def args7 : Args :=
  ⟨"/home/u/icon", "/home/u/build", "/usr/bin/gcc", "/usr/bin/gfortran", none, none, none, false⟩

/-- A dependency descriptor whose checks all pass in `env6`. -/
def depGood : DependencyInfo :=
  ⟨"good", "ok-pkg", "/inc", "/libdir", "good.h", "libgood.so"⟩

/-- A dependency descriptor whose package is present but not installed in `env6`. -/
def depBad : DependencyInfo :=
  ⟨"bad", "bad-pkg", "/inc", "/libdir", "good.h", "libgood.so"⟩

/-- A concrete dependency-check environment: `ok-pkg` installed, `bad-pkg`
present but not installed, and exactly the files of `depGood` on disk. -/
def env6 : DepEnv :=
  ⟨fun s => if s = "ok-pkg" then some ⟨true⟩ else if s = "bad-pkg" then some ⟨false⟩ else none,
   fun p => p = "/inc/good.h" || p = "/libdir/libgood.so"⟩

/-- A file-existence oracle for the compiler check: only the C compiler of
`args0` exists. -/
def fe10 : String → Bool :=
  fun p => p = "/usr/bin/gcc"

/-- Shape of a successful generator run: given the rendering succeeded with
text `s`, the generator makes the build directory, removes a pre-existing
`configure.sh` exactly when its content differs from `s`, and always writes
`s` with mtime `now`. -/
theorem generate_eq (args : Args) (deps : List DependencyInfo) (incOrder libOrder : List String)
    (fs : FS) (now : Nat) (s : String)
    (h : render_script args deps incOrder libOrder = Except.ok s) :
    generate_configure_script args deps incOrder libOrder fs now =
      (match fs.script with
      | some (txt, _) =>
        if s ≠ txt then
          ⟨[FSEvent.makedirs args.build_dir,
            FSEvent.removeFile (join_path args.build_dir "configure.sh"),
            FSEvent.writeFile (join_path args.build_dir "configure.sh") s],
           ⟨args.build_dir :: pathPrefixes args.build_dir ++ fs.dirs, some (s, now)⟩,
           Except.ok (join_path args.build_dir "configure.sh", s)⟩
        else
          ⟨[FSEvent.makedirs args.build_dir,
            FSEvent.writeFile (join_path args.build_dir "configure.sh") s],
           ⟨args.build_dir :: pathPrefixes args.build_dir ++ fs.dirs, some (s, now)⟩,
           Except.ok (join_path args.build_dir "configure.sh", s)⟩
      | none =>
        ⟨[FSEvent.makedirs args.build_dir,
          FSEvent.writeFile (join_path args.build_dir "configure.sh") s],
         ⟨args.build_dir :: pathPrefixes args.build_dir ++ fs.dirs, some (s, now)⟩,
         Except.ok (join_path args.build_dir "configure.sh", s)⟩ : GenResult) := by
  unfold generate_configure_script
  rw [h]
  cases hs : fs.script with
  | none => simp
  | some p =>
    obtain ⟨txt, t⟩ := p
    by_cases hne : s = txt
    · subst hne
      simp
    · simp [hne]

/-- Rendering over the static catalog `DEPS` always succeeds when MPI is off. -/
theorem render_DEPS_ok (args : Args) (o lo : List String) (hmpi : args.mpi = false) :
    ∃ s, render_script args DEPS o lo = Except.ok s := by
  unfold render_script
  have hlib : libNames DEPS = Except.ok ["lapack", "blas", "netcdf", "netcdff", "z", "sz", "xml2"] := rfl
  rw [hlib]
  simp [hmpi]

/-- A block of passing catalog entries is transparent to `check_dependencies`. -/
theorem check_dependencies_append (env : DepEnv) (rest : List DependencyInfo) :
    ∀ pre : List DependencyInfo, (∀ d2, d2 ∈ pre → check_dep env d2 = Except.ok ()) →
      check_dependencies env (pre ++ rest) = check_dependencies env rest := by
  intro pre
  induction pre with
  | nil => intro _; rfl
  | cons d pre ih =>
    intro hall
    have hd : check_dep env d = Except.ok () := hall d (List.mem_cons_self d pre)
    have step : check_dependencies env ((d :: pre) ++ rest) = check_dependencies env (pre ++ rest) := by
      show (match check_dep env d with
        | Except.error e => Except.error e
        | Except.ok _ => check_dependencies env (pre ++ rest)) = check_dependencies env (pre ++ rest)
      rw [hd]
    rw [step]
    exact ih (fun d2 hm => hall d2 (List.mem_cons_of_mem d hm))

/-- Two equal f-string messages interpolating a quoted value have equal values. -/
theorem dq_mid_inj (A B a b : String) (h : A ++ dq a ++ B = A ++ dq b ++ B) : a = b := by
  have h2 := congrArg String.data h
  simp only [dq, String.data_append, List.append_assoc, List.cons_append, List.nil_append] at h2
  have h3 := List.append_cancel_left h2
  simp only [List.cons.injEq, true_and] at h3
  exact String.ext (List.append_cancel_right h3)

/-- Claim C1 counterexample: with `mpi=false`, an existing `configure.sh` whose
content is byte-identical to the freshly rendered text, and a later call time,
the generator does not leave the file untouched: it performs a write, and the
file's modification time changes from 0 to 1. -/
theorem C1_identical_content_rewrite_cex :
    args0.mpi = false
    ∧ render_script args0 DEPS incOrder0 libOrder0 = Except.ok rendered0
    ∧ fs0.script = some (rendered0, 0)
    ∧ (generate_configure_script args0 DEPS incOrder0 libOrder0 fs0 1).fs ≠ fs0
    ∧ (generate_configure_script args0 DEPS incOrder0 libOrder0 fs0 1).fs.script = some (rendered0, 1)
    ∧ FSEvent.writeFile cfgPath0 rendered0 ∈
        (generate_configure_script args0 DEPS incOrder0 libOrder0 fs0 1).events :=
  ⟨rfl, rfl, rfl, by decide, rfl, by decide⟩

/-- Claim C1 (amended): with `mpi=false` the generator always rewrites
`configure.sh`: the final file content is the rendered text with the mtime of
the write; the returned pair is the path and text; a write event always
occurs; when the existing content is byte-identical the remove is skipped
(events are exactly makedirs-then-write) but the file is still rewritten; when
the existing content differs the file is first removed. -/
theorem C1_rewrite_always (args : Args) (deps : List DependencyInfo)
    (incOrder libOrder : List String) (fs : FS) (now : Nat) (s : String)
    (h : render_script args deps incOrder libOrder = Except.ok s) :
    (generate_configure_script args deps incOrder libOrder fs now).fs.script = some (s, now)
    ∧ (generate_configure_script args deps incOrder libOrder fs now).result =
        Except.ok (join_path args.build_dir "configure.sh", s)
    ∧ FSEvent.writeFile (join_path args.build_dir "configure.sh") s ∈
        (generate_configure_script args deps incOrder libOrder fs now).events
    ∧ (∀ t, fs.script = some (s, t) →
        (generate_configure_script args deps incOrder libOrder fs now).events =
          [FSEvent.makedirs args.build_dir,
           FSEvent.writeFile (join_path args.build_dir "configure.sh") s])
    ∧ (∀ txt t, fs.script = some (txt, t) → txt ≠ s →
        FSEvent.removeFile (join_path args.build_dir "configure.sh") ∈
          (generate_configure_script args deps incOrder libOrder fs now).events) := by
  rw [generate_eq args deps incOrder libOrder fs now s h]
  cases hs : fs.script with
  | none =>
    refine ⟨rfl, rfl, by simp, ?_, ?_⟩
    · intro t ht; simp at ht
    · intro txt t ht; simp at ht
  | some p =>
    obtain ⟨txt, t⟩ := p
    dsimp only
    by_cases hne : s = txt
    · subst hne
      rw [if_neg (show ¬(s ≠ s) by simp)]
      refine ⟨rfl, rfl, by simp, fun t2 ht => rfl, ?_⟩
      intro txt2 t2 ht hne2
      injection ht with hp
      exact absurd (congrArg Prod.fst hp).symm hne2
    · rw [if_pos hne]
      refine ⟨rfl, rfl, by simp, ?_, fun txt2 t2 ht hne2 => by simp⟩
      intro t2 ht
      injection ht with hp
      exact absurd (congrArg Prod.fst hp).symm hne

/-- Witness for claim C1's amended theorem at a concrete input. -/
theorem C1_rewrite_always_witness :
    (generate_configure_script args0 DEPS incOrder0 libOrder0 fs0 1).fs.script =
      some (rendered0, 1) :=
  (C1_rewrite_always args0 DEPS incOrder0 libOrder0 fs0 1 rendered0 rfl).1

/-- Claim C2 counterexample: two runs over the same configuration and catalog
whose `set` iteration orders differ (both are genuine enumerations of the
include-directory set of `DEPS`) produce script texts that are not
byte-identical: the ordering of the `-I` flags follows the interpreter's
set order. -/
theorem C2_set_order_cex :
    ValidEnum (DEPS.map (·.include_dir)) incOrder0
    ∧ ValidEnum (DEPS.map (·.include_dir)) incOrderSwap
    ∧ ValidEnum (DEPS.map (·.lib_dir)) libOrder0
    ∧ okScript (generate_configure_script args0 DEPS incOrder0 libOrder0 fsEmpty 0).result ≠
      okScript (generate_configure_script args0 DEPS incOrderSwap libOrder0 fsEmpty 0).result :=
  ⟨by decide, by decide, by decide, by decide⟩

/-- Claim C2 (amended): the rendering is a pure function of the inputs plus
the iteration orders of the two directory sets: with the same orders two
invocations give byte-identical text, and across any two valid orders the
`-I` flag list and `-L` flag list are permutations of one another (the `-l`
flags come from a list in catalog order, so they are identical by the first
part). -/
theorem C2_deterministic_up_to_set_order (args : Args) (deps : List DependencyInfo)
    (o1 o2 lo1 lo2 : List String)
    (h1 : ValidEnum (deps.map (·.include_dir)) o1)
    (h2 : ValidEnum (deps.map (·.include_dir)) o2)
    (h3 : ValidEnum (deps.map (·.lib_dir)) lo1)
    (h4 : ValidEnum (deps.map (·.lib_dir)) lo2) :
    (o1 = o2 → lo1 = lo2 →
      render_script args deps o1 lo1 = render_script args deps o2 lo2)
    ∧ (o1.map (fun i => "-I" ++ i)).Perm (o2.map (fun i => "-I" ++ i))
    ∧ (lo1.map (fun l => "-L" ++ l)).Perm (lo2.map (fun l => "-L" ++ l)) :=
  ⟨fun e1 e2 => by rw [e1, e2],
   (h1.trans h2.symm).map _,
   (h3.trans h4.symm).map _⟩

/-- Witness for claim C2's amended theorem at two concrete enumerations. -/
theorem C2_deterministic_up_to_set_order_witness :
    (incOrder0.map (fun i => "-I" ++ i)).Perm (incOrderSwap.map (fun i => "-I" ++ i)) :=
  (C2_deterministic_up_to_set_order args0 DEPS incOrder0 incOrderSwap libOrder0 libOrder0
    (by decide) (by decide) (by decide) (by decide)).2.1

/-- Claim C3: with `mpi=true` the generator halts with the `Not implemented`
assertion before any filesystem action: no events are emitted, the filesystem
(and in particular `configure.sh`) is unchanged, and no script is returned. -/
theorem C3_mpi_halts_before_write (args : Args) (o lo : List String) (fs : FS) (now : Nat)
    (hmpi : args.mpi = true) :
    generate_configure_script args DEPS o lo fs now = ⟨[], fs, Except.error "Not implemented"⟩ := by
  have hr : render_script args DEPS o lo = Except.error "Not implemented" := by
    unfold render_script
    have hlib : libNames DEPS = Except.ok ["lapack", "blas", "netcdf", "netcdff", "z", "sz", "xml2"] := rfl
    rw [hlib]
    simp [hmpi]
  unfold generate_configure_script
  rw [hr]

/-- Witness for claim C3 at a concrete MPI-enabled configuration. -/
theorem C3_mpi_halts_before_write_witness :
    generate_configure_script args3 DEPS incOrder0 libOrder0 fsEmpty 5 =
      ⟨[], fsEmpty, Except.error "Not implemented"⟩ :=
  C3_mpi_halts_before_write args3 incOrder0 libOrder0 fsEmpty 5 rfl

/-- Claim C4: with a requested remote `R` and branch `B` and an existing
checkout, `prepare_source` succeeds performing only the submodule-update pass
(no clone) when the checkout matches `(R, B)`, and fails with the respective
mismatch message when the remote or the branch differs. -/
theorem C4_existing_checkout_reconcile (args : Args) (R B : String) (st cloned : RepoState)
    (hrepo : args.icon_git_repo = some R) (hbr : args.icon_git_branch = some B) :
    (st.origin_url = R → st.branch = B →
      prepare_source args (some st) cloned =
        (st.submodules.map GitEvent.submoduleUpdate, Except.ok ()))
    ∧ (st.origin_url = R → st.branch = B →
        ∀ u d b, GitEvent.clone u d b ∉ (prepare_source args (some st) cloned).1)
    ∧ (st.origin_url ≠ R →
        prepare_source args (some st) cloned =
          ([], Except.error ("\tSource directory origin is in different repository " ++ dq st.origin_url)))
    ∧ (st.origin_url = R → st.branch ≠ B →
        prepare_source args (some st) cloned =
          ([], Except.error ("\tSource directory origin is different branch " ++ dq st.branch))) := by
  unfold prepare_source
  rw [hrepo, hbr]
  dsimp only
  refine ⟨?_, ?_, ?_, ?_⟩
  · intro hu hb
    rw [if_neg (show ¬(st.origin_url ≠ R) by simp [hu]), if_neg (show ¬(st.branch ≠ B) by simp [hb])]
  · intro hu hb u d b
    rw [if_neg (show ¬(st.origin_url ≠ R) by simp [hu]), if_neg (show ¬(st.branch ≠ B) by simp [hb])]
    intro hmem
    simp only [List.mem_map] at hmem
    obtain ⟨a, _, hceq⟩ := hmem
    exact GitEvent.noConfusion hceq
  · intro hu
    rw [if_pos hu]
  · intro hu hb
    rw [if_neg (show ¬(st.origin_url ≠ R) by simp [hu]), if_pos hb]

/-- Witness for claim C4: a matching checkout updates its two submodules and
succeeds. -/
theorem C4_existing_checkout_reconcile_witness :
    prepare_source args4 (some st4) cloned4 =
      (st4.submodules.map GitEvent.submoduleUpdate, Except.ok ()) :=
  (C4_existing_checkout_reconcile args4 "https://example.org/icon.git" "main" st4 cloned4
    rfl rfl).1 rfl rfl

/-- Claim C5: in the spec's example scenario (single zlib descriptor,
gcc/gfortran, no transpiler, MPI off) the generated script contains
`CFLAGS="-I/usr/include"`, `LDFLAGS="-L/usr/lib"`, `LIBS="-lz"`, and its
configure invocation line ends with `--disable-mpi`. -/
theorem C5_zlib_example :
    ValidEnum (deps5.map (·.include_dir)) ["/usr/include"]
    ∧ ValidEnum (deps5.map (·.lib_dir)) ["/usr/lib"]
    ∧ okScript (generate_configure_script args5 deps5 ["/usr/include"] ["/usr/lib"] fsEmpty 0).result =
        some script5
    ∧ strContains script5 "CFLAGS=\"-I/usr/include\"" = true
    ∧ strContains script5 "LDFLAGS=\"-L/usr/lib\"" = true
    ∧ strContains script5 "LIBS=\"-lz\"" = true
    ∧ "/home/u/icon/configure --disable-mpi" ∈ strLines script5
    ∧ strEndsWith "/home/u/icon/configure --disable-mpi" "--disable-mpi" = true :=
  ⟨by decide, by decide, rfl, by decide, by decide, by decide, by decide, by decide⟩

/-- Claim C6: `check_dependencies` walks the catalog in order and halts at the
first entry with an unmet condition, returning that entry's message; within an
entry the conditions are checked in source order (package found, package
installed, header present, library present) and each failure message names the
missing package or file; a catalog whose entries all pass succeeds. -/
theorem C6_dependency_check_fail_fast (env : DepEnv) (pre post l : List DependencyInfo)
    (d : DependencyInfo) (m : String) :
    ((∀ d2, d2 ∈ pre → check_dep env d2 = Except.ok ()) → check_dep env d = Except.error m →
      check_dependencies env (pre ++ d :: post) = Except.error m)
    ∧ ((∀ d2, d2 ∈ l → check_dep env d2 = Except.ok ()) → check_dependencies env l = Except.ok ())
    ∧ (check_dep env d = Except.error m →
        m = msg_apt_not_found d ∨ m = msg_not_installed d ∨
        m = msg_header_not_found d ∨ m = msg_lib_not_found d)
    ∧ (env.cache d.apt_package = none → check_dep env d = Except.error (msg_apt_not_found d))
    ∧ (∀ p, env.cache d.apt_package = some p → p.is_installed = false →
        check_dep env d = Except.error (msg_not_installed d))
    ∧ (∀ p, env.cache d.apt_package = some p → p.is_installed = true →
        env.file_exists (join_path d.include_dir d.test_h) = false →
        check_dep env d = Except.error (msg_header_not_found d))
    ∧ (∀ p, env.cache d.apt_package = some p → p.is_installed = true →
        env.file_exists (join_path d.include_dir d.test_h) = true →
        env.file_exists (join_path d.lib_dir d.lib) = false →
        check_dep env d = Except.error (msg_lib_not_found d)) := by
  refine ⟨?_, ?_, ?_, ?_, ?_, ?_, ?_⟩
  · intro hpre hd
    rw [check_dependencies_append env (d :: post) pre hpre]
    show (match check_dep env d with
      | Except.error e => Except.error e
      | Except.ok _ => check_dependencies env post) = Except.error m
    rw [hd]
  · intro hall
    induction l with
    | nil => rfl
    | cons d2 l2 ih =>
      have hd2 : check_dep env d2 = Except.ok () := hall d2 (List.mem_cons_self d2 l2)
      show (match check_dep env d2 with
        | Except.error e => Except.error e
        | Except.ok _ => check_dependencies env l2) = Except.ok ()
      rw [hd2]
      exact ih (fun d3 hm => hall d3 (List.mem_cons_of_mem d2 hm))
  · intro hd
    unfold check_dep at hd
    cases hc : env.cache d.apt_package with
    | none => rw [hc] at hd; injection hd with he; exact Or.inl he.symm
    | some p =>
      rw [hc] at hd
      dsimp only at hd
      by_cases hi : p.is_installed
      · rw [if_neg (by simp [hi])] at hd
        by_cases hh : env.file_exists (join_path d.include_dir d.test_h)
        · rw [if_neg (by simp [hh])] at hd
          by_cases hl : env.file_exists (join_path d.lib_dir d.lib)
          · rw [if_neg (by simp [hl])] at hd
            exact absurd hd (by simp)
          · rw [if_pos (by simp [hl])] at hd
            injection hd with he
            exact Or.inr (Or.inr (Or.inr he.symm))
        · rw [if_pos (by simp [hh])] at hd
          injection hd with he
          exact Or.inr (Or.inr (Or.inl he.symm))
      · rw [if_pos (by simp [hi])] at hd
        injection hd with he
        exact Or.inr (Or.inl he.symm)
  · intro hc
    unfold check_dep
    rw [hc]
  · intro p hc hi
    unfold check_dep
    rw [hc]
    dsimp only
    rw [if_pos (by simp [hi])]
  · intro p hc hi hh
    unfold check_dep
    rw [hc]
    dsimp only
    rw [if_neg (by simp [hi]), if_pos (by simp [hh])]
  · intro p hc hi hh hl
    unfold check_dep
    rw [hc]
    dsimp only
    rw [if_neg (by simp [hi]), if_neg (by simp [hh]), if_pos (by simp [hl])]

/-- Witness for claim C6: a passing entry followed by a not-installed entry
halts with the latter's install-hint message, leaving the rest unexamined. -/
theorem C6_dependency_check_fail_fast_witness :
    check_dependencies env6 ([depGood] ++ depBad :: [depGood]) =
      Except.error (msg_not_installed depBad) :=
  (C6_dependency_check_fail_fast env6 [depGood] [depGood] [] depBad (msg_not_installed depBad)).1
    (fun d2 h2 => by rw [List.mem_singleton] at h2; subst h2; rfl) rfl

/-- Claim C7: with no remote URL, `prepare_source` performs no git action and
succeeds exactly when the source directory exists, failing with the
descriptive message otherwise. -/
theorem C7_no_remote_requires_dir (args : Args) (existing : Option RepoState) (cloned : RepoState)
    (h : args.icon_git_repo = none) :
    ((prepare_source args existing cloned).2 = Except.ok () ↔ existing.isSome = true)
    ∧ (existing = none →
        (prepare_source args existing cloned).2 =
          Except.error ("ICON source dir " ++ dq args.icon_dir ++ " does not exist"))
    ∧ (prepare_source args existing cloned).1 = [] := by
  unfold prepare_source
  rw [h]
  cases existing with
  | none => refine ⟨by simp, fun _ => rfl, rfl⟩
  | some st => refine ⟨by simp, fun hc => by simp at hc, rfl⟩

/-- Witness for claim C7: a missing directory with no remote URL fails with
the descriptive message. -/
theorem C7_no_remote_requires_dir_witness :
    (prepare_source args7 none cloned4).2 =
      Except.error ("ICON source dir " ++ dq args7.icon_dir ++ " does not exist") :=
  (C7_no_remote_requires_dir args7 none cloned4 rfl).2.1 rfl

/-- Claim C8: every catalog entry's library filename starts with `lib` and
ends with `.so` or `.a`, the generator's link names are obtained by stripping
exactly that prefix and suffix, and over `DEPS` they evaluate accordingly. -/
theorem C8_lib_naming_invariant :
    (DEPS.all fun d => strStartsWith d.lib "lib" &&
      (strEndsWith d.lib ".so" || strEndsWith d.lib ".a")) = true
    ∧ (DEPS.all fun d =>
        ("lib" ++ lib_link_name d.lib ++ ".so" == d.lib) ||
        ("lib" ++ lib_link_name d.lib ++ ".a" == d.lib)) = true
    ∧ libNames DEPS = Except.ok ["lapack", "blas", "netcdf", "netcdff", "z", "sz", "xml2"] :=
  ⟨by decide, by decide, rfl⟩

/-- Claim C9: with `mpi=false` over the static catalog, the generator's first
filesystem action is `makedirs` on the build directory and its last is the
write of `configure.sh`; the run returns the path and text, and afterwards the
build directory and all its parent prefixes exist. -/
theorem C9_makedirs_before_write (args : Args) (o lo : List String) (fs : FS) (now : Nat)
    (hmpi : args.mpi = false) :
    ∃ s, render_script args DEPS o lo = Except.ok s
    ∧ (∃ mid, (generate_configure_script args DEPS o lo fs now).events =
        FSEvent.makedirs args.build_dir :: mid ++
          [FSEvent.writeFile (join_path args.build_dir "configure.sh") s])
    ∧ (generate_configure_script args DEPS o lo fs now).result =
        Except.ok (join_path args.build_dir "configure.sh", s)
    ∧ args.build_dir ∈ (generate_configure_script args DEPS o lo fs now).fs.dirs
    ∧ (∀ p, p ∈ pathPrefixes args.build_dir →
        p ∈ (generate_configure_script args DEPS o lo fs now).fs.dirs) := by
  obtain ⟨s, hr⟩ := render_DEPS_ok args o lo hmpi
  refine ⟨s, hr, ?_⟩
  rw [generate_eq args DEPS o lo fs now s hr]
  cases hs : fs.script with
  | none =>
    refine ⟨⟨[], rfl⟩, rfl, List.mem_cons_self _ _, ?_⟩
    intro p hp
    exact List.mem_cons_of_mem _ (List.mem_append_left _ hp)
  | some q =>
    obtain ⟨txt, t⟩ := q
    dsimp only
    by_cases hne : s = txt
    · subst hne
      rw [if_neg (show ¬(s ≠ s) by simp)]
      refine ⟨⟨[], rfl⟩, rfl, List.mem_cons_self _ _, ?_⟩
      intro p hp
      exact List.mem_cons_of_mem _ (List.mem_append_left _ hp)
    · rw [if_pos hne]
      refine ⟨⟨[FSEvent.removeFile (join_path args.build_dir "configure.sh")], rfl⟩, rfl,
        List.mem_cons_self _ _, ?_⟩
      intro p hp
      exact List.mem_cons_of_mem _ (List.mem_append_left _ hp)

/-- Witness for claim C9 at a concrete configuration and empty filesystem. -/
theorem C9_makedirs_before_write_witness :
    ∃ s, render_script args0 DEPS incOrder0 libOrder0 = Except.ok s
    ∧ (∃ mid, (generate_configure_script args0 DEPS incOrder0 libOrder0 fsEmpty 0).events =
        FSEvent.makedirs args0.build_dir :: mid ++
          [FSEvent.writeFile (join_path args0.build_dir "configure.sh") s])
    ∧ (generate_configure_script args0 DEPS incOrder0 libOrder0 fsEmpty 0).result =
        Except.ok (join_path args0.build_dir "configure.sh", s)
    ∧ args0.build_dir ∈ (generate_configure_script args0 DEPS incOrder0 libOrder0 fsEmpty 0).fs.dirs
    ∧ (∀ p, p ∈ pathPrefixes args0.build_dir →
        p ∈ (generate_configure_script args0 DEPS incOrder0 libOrder0 fsEmpty 0).fs.dirs) :=
  C9_makedirs_before_write args0 incOrder0 libOrder0 fsEmpty 0 rfl

/-- Claim C10: when the C compiler path exists but the Fortran compiler path
does not, `check_compilers` fails with a message that interpolates `args.cc`
(the C compiler path), and when the two paths differ the message is not the
one naming `args.fc`. -/
theorem C10_fc_message_reports_cc (args : Args) (fe : String → Bool)
    (hcc : fe args.cc = true) (hfc : fe args.fc = false) :
    check_compilers args fe = Except.error ("Fortran compiler " ++ dq args.cc ++ " not found")
    ∧ (args.fc ≠ args.cc →
        check_compilers args fe ≠
          Except.error ("Fortran compiler " ++ dq args.fc ++ " not found")) := by
  have h1 : check_compilers args fe =
      Except.error ("Fortran compiler " ++ dq args.cc ++ " not found") := by
    unfold check_compilers
    rw [hcc, hfc]
    simp
  refine ⟨h1, ?_⟩
  intro hne heq
  rw [h1] at heq
  injection heq with he
  exact hne (dq_mid_inj "Fortran compiler " " not found" args.cc args.fc he).symm

/-- Witness for claim C10: gcc exists, gfortran does not, the message names
the C compiler path. -/
theorem C10_fc_message_reports_cc_witness :
    check_compilers args0 fe10 =
      Except.error ("Fortran compiler " ++ dq args0.cc ++ " not found") :=
  (C10_fc_message_reports_cc args0 fe10 rfl rfl).1
